import Mathlib

/-!
# Task-tracking API: authorization and query-filtering core

A shallow embedding of the repository's core: the Mongoose `Task` model
(schema validation, pre-save middleware, instance methods), the task
controller operations (`createTask`, `getTasks`, `getTask`, `updateTask`,
`deleteTask`, `addComment`, `getTaskStats`) and the authentication
middleware's post-verification steps.

Conventions of the embedding:
* ObjectIds are `Nat`; timestamps (JS `Date` values) are `Int` milliseconds.
* A request's query/body values arrive as `Option` fields; `none` stands for
  an absent (or JS-falsy, where the source tests truthiness) value.
* Fallible operations return `Except`: an `Except.ok` value is the new stored
  state; `Except.error` means the request was rejected and nothing was
  written (the source returns the HTTP error before any write in each such
  branch).
-/

namespace TaskApp

/-- The two roles of the system (`role ∈ {user, admin}`). -/
inductive Role
  | user
  | admin
deriving DecidableEq, Repr

/-- Task status enum: `['pending', 'in-progress', 'completed', 'cancelled']`. -/
inductive Status
  | pending
  | inProgress
  | completed
  | cancelled
deriving DecidableEq, Repr

/-- Task priority enum: `['low', 'medium', 'high', 'urgent']`. -/
inductive Priority
  | low
  | medium
  | high
  | urgent
deriving DecidableEq, Repr

/-- Mongoose string `trim` setter: strip whitespace from both ends. -/
def strTrim (s : String) : String :=
  ⟨((s.data.dropWhile Char.isWhitespace).reverse.dropWhile Char.isWhitespace).reverse⟩

/-- An entry of the task's `comments` array. -/
structure TaskComment where
  content : String
  author : Nat
  createdAt : Int
deriving DecidableEq, Repr

/-- An entry of the task's `attachments` array. -/
structure Attachment where
  filename : String
  url : String
  uploadedAt : Int
deriving DecidableEq, Repr

/-- The `Task` document (schema fields with their defaults). -/
structure Task where
  title : String
  description : String := ""
  status : Status := Status.pending
  priority : Priority := Priority.medium
  category : String := "general"
  dueDate : Option Int := none
  completedAt : Option Int := none
  assignedTo : Nat
  createdBy : Nat
  tags : List String := []
  attachments : List Attachment := []
  comments : List TaskComment := []
  isArchived : Bool := false
deriving DecidableEq, Repr

/-- Schema validation of a whole document, run by `save` before the
pre-save middleware: title required and 1–200 chars, description ≤ 1000,
category ≤ 50, `dueDate` absent or strictly in the future
(`!value || value > new Date()`), each tag ≤ 30 chars, each comment
content required and ≤ 500 chars. -/
def validateTask (t : Task) (now : Int) : Bool :=
  !t.title.isEmpty && t.title.length ≤ 200 &&
  t.description.length ≤ 1000 &&
  t.category.length ≤ 50 &&
  (match t.dueDate with
   | some d => decide (now < d)
   | none => true) &&
  t.tags.all (fun s => s.length ≤ 30) &&
  t.comments.all (fun c => !c.content.isEmpty && c.content.length ≤ 500)

/-- First `taskSchema.pre('save')` hook: when the status path is modified,
set `completedAt` on transition to `completed` (if not already set) and
clear it whenever the status is not `completed`. -/
def preSaveCompletedAt (statusModified : Bool) (now : Int) (t : Task) : Task :=
  if statusModified then
    if t.status == Status.completed && t.completedAt == none then
      { t with completedAt := some now }
    else if !(t.status == Status.completed) then
      { t with completedAt := none }
    else t
  else t

/-- Second `taskSchema.pre('save')` hook: `if (this.dueDate && this.dueDate
<= new Date())` the save is rejected with an error. -/
def preSaveDueDateBad (t : Task) (now : Int) : Bool :=
  match t.dueDate with
  | some d => decide (d ≤ now)
  | none => false

/-- `document.save()`: validation runs first, then the two pre-save hooks
in registration order; on success the stored document is the hook-adjusted
one. -/
def Task.save (t : Task) (statusModified : Bool) (now : Int) : Except String Task :=
  if validateTask t now then
    let t1 := preSaveCompletedAt statusModified now t
    if preSaveDueDateBad t1 now then
      Except.error "Due date must be in the future"
    else
      Except.ok t1
  else
    Except.error "ValidationFailed"

/-- `taskSchema.methods.canModify`: admin may modify any task; otherwise
the creator and the assignee may. -/
def Task.canModify (t : Task) (userId : Nat) (userRole : Role) : Bool :=
  if userRole = Role.admin then true
  else t.createdBy == userId || t.assignedTo == userId

/-- `taskSchema.methods.addComment`: push `{content, author}` onto
`comments` and `save()` (the push does not modify the status path). -/
def Task.addComment (t : Task) (content : String) (authorId : Nat) (now : Int) :
    Except String Task :=
  Task.save
    { t with comments := t.comments ++ [{ content := content, author := authorId, createdAt := now }] }
    false now

/-- Error outcomes of a controller operation: 404, 403 (with its message),
or a validation/save failure. -/
inductive ApiErr
  | notFound
  | forbidden (msg : String)
  | invalid (msg : String)
deriving DecidableEq, Repr

/-- The request body of `POST /api/v1/tasks` (fields the controller
destructures; `none` = absent or JS-falsy). -/
structure CreateBody where
  title : Option String := none
  description : Option String := none
  status : Option Status := none
  priority : Option Priority := none
  category : Option String := none
  dueDate : Option Int := none
  assignedTo : Option Nat := none
  tags : Option (List String) := none
deriving DecidableEq, Repr

/-- The `taskData` document built by `createTask`: provided fields, schema
defaults otherwise; `assignedTo: assignedTo || req.user._id`;
`createdBy: req.user._id`. -/
def mkTaskDoc (uid : Nat) (b : CreateBody) : Task :=
  { title := strTrim (b.title.getD "")
    description := strTrim (b.description.getD "")
    status := b.status.getD Status.pending
    priority := b.priority.getD Priority.medium
    category := strTrim (b.category.getD "general")
    dueDate := b.dueDate
    completedAt := none
    assignedTo := b.assignedTo.getD uid
    createdBy := uid
    tags := (b.tags.getD []).map strTrim }

/-- `createTask` controller: reject with 403 when a non-admin supplies an
`assignedTo` different from themselves, else `Task.create` (which runs the
save pipeline on the new document; on a new document the status path counts
as modified). -/
def createTask (uid : Nat) (role : Role) (b : CreateBody) (now : Int) :
    Except ApiErr Task :=
  let denied : Bool :=
    match b.assignedTo with
    | some a => !(uid == a) && !(role == Role.admin)
    | none => false
  if denied then
    Except.error (ApiErr.forbidden "Only admins can assign tasks to other users")
  else
    match Task.save (mkTaskDoc uid b) true now with
    | Except.error e => Except.error (ApiErr.invalid e)
    | Except.ok t => Except.ok t

/-- `getTask` controller: 404 when the id resolves to no task, 403 when the
caller is neither admin nor the task's assignee nor its creator. -/
def getTask (uid : Nat) (role : Role) (lookup : Option Task) : Except ApiErr Task :=
  match lookup with
  | none => Except.error ApiErr.notFound
  | some t =>
    if !(role == Role.admin) && !(t.assignedTo == uid) && !(t.createdBy == uid) then
      Except.error (ApiErr.forbidden "Access denied")
    else
      Except.ok t

/-- The request body of `PUT /api/v1/tasks/:id`. Besides the writable
fields it records submitted values for fields the controller never copies
into `updates` (`completedAt`, `createdBy`, `comments` are representative)
and the names of any further unknown keys. -/
structure UpdateBody where
  title : Option String := none
  description : Option String := none
  status : Option Status := none
  priority : Option Priority := none
  category : Option String := none
  dueDate : Option Int := none
  tags : Option (List String) := none
  isArchived : Option Bool := none
  assignedTo : Option Nat := none
  completedAt : Option Int := none
  createdBy : Option Nat := none
  comments : Option (List TaskComment) := none
  otherKeys : List String := []
deriving DecidableEq, Repr

/-- The `updates` object applied by `findByIdAndUpdate`: only keys of
`allowedUpdates` (plus `assignedTo` when the caller is admin) are copied
from the body; every other key of the body is ignored. -/
def allowedUpdatesApplied (t : Task) (b : UpdateBody) (isAdmin : Bool) : Task :=
  { t with
    title := match b.title with | some s => strTrim s | none => t.title
    description := match b.description with | some s => strTrim s | none => t.description
    status := b.status.getD t.status
    priority := b.priority.getD t.priority
    category := match b.category with | some s => strTrim s | none => t.category
    dueDate := match b.dueDate with | some d => some d | none => t.dueDate
    tags := match b.tags with | some l => l.map strTrim | none => t.tags
    isArchived := b.isArchived.getD t.isArchived
    assignedTo := if isAdmin then b.assignedTo.getD t.assignedTo else t.assignedTo }

/-- `runValidators: true` on `findByIdAndUpdate`: the schema validators run
on the updated paths only (the paths present in `updates`). -/
def validUpdates (b : UpdateBody) (now : Int) : Bool :=
  (match b.title with
   | some s => !(strTrim s).isEmpty && (strTrim s).length ≤ 200
   | none => true) &&
  (match b.description with
   | some s => (strTrim s).length ≤ 1000
   | none => true) &&
  (match b.category with
   | some s => (strTrim s).length ≤ 50
   | none => true) &&
  (match b.dueDate with
   | some d => decide (now < d)
   | none => true) &&
  (match b.tags with
   | some l => l.all (fun s => (strTrim s).length ≤ 30)
   | none => true)

/-- `updateTask` controller: 404, then `canModify`, then the reassignment
guard (a non-admin may not set `assignedTo` to a value different from the
task's current assignee), then `findByIdAndUpdate(updates, {new: true,
runValidators: true})`. `findByIdAndUpdate` runs update validators but not
the `pre('save')` middleware, so no save hook is applied to the result. -/
def updateTask (uid : Nat) (role : Role) (lookup : Option Task) (b : UpdateBody)
    (now : Int) : Except ApiErr Task :=
  match lookup with
  | none => Except.error ApiErr.notFound
  | some t =>
    if !(t.canModify uid role) then
      Except.error
        (ApiErr.forbidden "Access denied. You can only modify tasks you created or are assigned to")
    else if (match b.assignedTo with
             | some a => !(role == Role.admin) && !(t.assignedTo == a)
             | none => false) then
      Except.error (ApiErr.forbidden "Only admins can reassign tasks")
    else if validUpdates b now then
      Except.ok (allowedUpdatesApplied t b (role == Role.admin))
    else
      Except.error (ApiErr.invalid "ValidationFailed")

/-- `deleteTask` controller: 404, then `canModify`, then the delete. -/
def deleteTask (uid : Nat) (role : Role) (lookup : Option Task) : Except ApiErr Unit :=
  match lookup with
  | none => Except.error ApiErr.notFound
  | some t =>
    if !(t.canModify uid role) then
      Except.error
        (ApiErr.forbidden "Access denied. You can only delete tasks you created or are assigned to")
    else
      Except.ok ()

/-- `addComment` controller: 404, then the inline access check (admin, or
assignee, or creator), then `task.addComment(content, req.user._id)` which
saves the document. On an error from the save nothing is persisted, so the
stored task (and its comment list) is unchanged. -/
def addComment (uid : Nat) (role : Role) (lookup : Option Task) (content : String)
    (now : Int) : Except ApiErr Task :=
  match lookup with
  | none => Except.error ApiErr.notFound
  | some t =>
    if !(role == Role.admin) && !(t.assignedTo == uid) && !(t.createdBy == uid) then
      Except.error (ApiErr.forbidden "Access denied")
    else
      match t.addComment content uid now with
      | Except.error e => Except.error (ApiErr.invalid e)
      | Except.ok t1 => Except.ok t1

/-- A leading match of `needle` against `hay` (character lists). -/
def leadMatch : List Char → List Char → Bool
  | _, [] => true
  | [], _ => false
  | h :: hs, n :: ns => h == n && leadMatch hs ns

/-- `needle` occurs as a contiguous run somewhere in `hay`. -/
def subMatch : List Char → List Char → Bool
  | [], needle => needle.isEmpty
  | hay@(_ :: rest), needle => leadMatch hay needle || subMatch rest needle

/-- The `$regex ... $options: 'i'` test of the search branch: a
case-insensitive substring match. -/
def containsCI (hay pat : String) : Bool :=
  subMatch (hay.data.map Char.toLower) (pat.data.map Char.toLower)

/-- The value stored under the filter's top-level `$or` key: either the
role-based ownership scope or the free-text search group. Writing the key
a second time replaces the previous value. -/
inductive OrClause
  | ownership (uid : Nat)
  | searchText (s : String)
deriving DecidableEq, Repr

/-- The value stored under the filter's `status` key: an exact match or the
`$nin` constraint written by the `overdue` branch. -/
inductive StatusCond
  | eq (s : Status)
  | nin (l : List Status)
deriving DecidableEq, Repr

/-- The value stored under the filter's `dueDate` key: `{$lt: now}` from the
`overdue` branch or `{$gte: today, $lt: tomorrow}` from the `today` branch. -/
inductive DueCond
  | lt (d : Int)
  | range (lo hi : Int)
deriving DecidableEq, Repr

/-- The `filter` object `getTasks` builds key by key (a missing key is
`none`). -/
structure TaskFilter where
  orClause : Option OrClause := none
  status : Option StatusCond := none
  priority : Option Priority := none
  category : Option String := none
  assignedTo : Option Nat := none
  createdBy : Option Nat := none
  isArchived : Option Bool := none
  dueDate : Option DueCond := none
deriving DecidableEq, Repr

/-- The query string of `GET /api/v1/tasks`. `none` is an absent value (or,
where the source tests truthiness, a falsy one); `isArchived` keeps its raw
string because the source tests `!== undefined` and compares to `'true'`,
and `page`/`limit` are the parsed nonnegative integers. -/
structure QueryParams where
  page : Option Nat := none
  limit : Option Nat := none
  status : Option Status := none
  priority : Option Priority := none
  category : Option String := none
  assignedTo : Option Nat := none
  createdBy : Option Nat := none
  isArchived : Option String := none
  dueDate : Option String := none
  search : Option String := none
  sortBy : Option String := none
deriving DecidableEq, Repr

/-- `let filter = {}` then the role gate: non-admin callers start from the
ownership `$or`; an admin starts unrestricted. -/
def baseScopeFilter (role : Role) (uid : Nat) : TaskFilter :=
  if role == Role.admin then {}
  else { orClause := some (OrClause.ownership uid) }

/-- The six `if (req.query.X) filter.X = ...` equality filters (with
`isArchived` present-checked and compared against the string `'true'`). -/
def applyEqualityFilters (q : QueryParams) (f : TaskFilter) : TaskFilter :=
  let f := match q.status with
    | some s => { f with status := some (StatusCond.eq s) }
    | none => f
  let f := match q.priority with
    | some p => { f with priority := some p }
    | none => f
  let f := match q.category with
    | some c => { f with category := some c }
    | none => f
  let f := match q.assignedTo with
    | some a => { f with assignedTo := some a }
    | none => f
  let f := match q.createdBy with
    | some c => { f with createdBy := some c }
    | none => f
  match q.isArchived with
  | some s => { f with isArchived := some (s == "true") }
  | none => f

/-- One day in milliseconds (`tomorrow.setDate(today.getDate() + 1)`). -/
def dayMs : Int := 86400000

/-- The date-keyword filter: `overdue` writes `dueDate: {$lt: now}` and
overwrites the `status` key with `{$nin: ['completed', 'cancelled']}`;
`today` writes `dueDate: {$gte: today, $lt: tomorrow}`; anything else is a
no-op. -/
def applyDueDateFilter (q : QueryParams) (now : Int) (f : TaskFilter) : TaskFilter :=
  match q.dueDate with
  | some s =>
    if s == "overdue" then
      { f with dueDate := some (DueCond.lt now)
               status := some (StatusCond.nin [Status.completed, Status.cancelled]) }
    else if s == "today" then
      { f with dueDate := some (DueCond.range now (now + dayMs)) }
    else f
  | none => f

/-- The search branch: writing `filter.$or` replaces whatever the `$or` key
already held. -/
def applySearchFilter (q : QueryParams) (f : TaskFilter) : TaskFilter :=
  match q.search with
  | some s => { f with orClause := some (OrClause.searchText s) }
  | none => f

/-- The complete filter `getTasks` hands to both `Task.find` and
`Task.countDocuments`: base scope, then equality filters, then the
date-keyword filter, then the search branch. -/
def buildFilter (role : Role) (uid : Nat) (q : QueryParams) (now : Int) : TaskFilter :=
  applySearchFilter q (applyDueDateFilter q now (applyEqualityFilters q (baseScopeFilter role uid)))

/-- Evaluation of the `$or` key on a document. -/
def orMatches (t : Task) : Option OrClause → Bool
  | none => true
  | some (OrClause.ownership uid) => t.assignedTo == uid || t.createdBy == uid
  | some (OrClause.searchText s) =>
      containsCI t.title s || containsCI t.description s || containsCI t.category s

/-- Evaluation of the `status` key on a document. -/
def statusCondMatches (t : Task) : Option StatusCond → Bool
  | none => true
  | some (StatusCond.eq s) => t.status == s
  | some (StatusCond.nin l) => !(l.contains t.status)

/-- Evaluation of the `priority` key on a document. -/
def priorityMatches (t : Task) : Option Priority → Bool
  | none => true
  | some p => t.priority == p

/-- Evaluation of the `category` key on a document. -/
def categoryMatches (t : Task) : Option String → Bool
  | none => true
  | some c => t.category == c

/-- Evaluation of the `assignedTo` key on a document. -/
def assignedToMatches (t : Task) : Option Nat → Bool
  | none => true
  | some a => t.assignedTo == a

/-- Evaluation of the `createdBy` key on a document. -/
def createdByMatches (t : Task) : Option Nat → Bool
  | none => true
  | some c => t.createdBy == c

/-- Evaluation of the `isArchived` key on a document. -/
def archivedMatches (t : Task) : Option Bool → Bool
  | none => true
  | some b => t.isArchived == b

/-- Evaluation of the `dueDate` key on a document (a document without the
field matches no range constraint). -/
def dueMatches (t : Task) : Option DueCond → Bool
  | none => true
  | some (DueCond.lt d) =>
      match t.dueDate with
      | some x => decide (x < d)
      | none => false
  | some (DueCond.range lo hi) =>
      match t.dueDate with
      | some x => decide (lo ≤ x) && decide (x < hi)
      | none => false

/-- A document matches the filter when it satisfies every present key. -/
def matchesFilter (t : Task) (f : TaskFilter) : Bool :=
  orMatches t f.orClause &&
  statusCondMatches t f.status &&
  priorityMatches t f.priority &&
  categoryMatches t f.category &&
  assignedToMatches t f.assignedTo &&
  createdByMatches t f.createdBy &&
  archivedMatches t f.isArchived &&
  dueMatches t f.dueDate

/-- `parseInt(req.query.page) || 1` (`0` and a non-number are falsy). -/
def parsePageParam : Option Nat → Nat
  | none => 1
  | some 0 => 1
  | some n => n

/-- `parseInt(req.query.limit) || 10`. -/
def parseLimitParam : Option Nat → Nat
  | none => 10
  | some 0 => 10
  | some n => n

/-- The documents matching the filter, in the order produced by the query's
sort stage (`db` is the stored collection in that order; sorting permutes
the collection and is not modelled further). -/
def getTasksFilteredDb (db : List Task) (role : Role) (uid : Nat) (q : QueryParams)
    (now : Int) : List Task :=
  db.filter (fun t => matchesFilter t (buildFilter role uid q now))

/-- The page `Task.find(filter).sort(sortBy).skip(skip).limit(limit)`
returns, with `skip = (page - 1) * limit`. -/
def getTasksItems (db : List Task) (role : Role) (uid : Nat) (q : QueryParams)
    (now : Int) : List Task :=
  ((getTasksFilteredDb db role uid q now).drop
      ((parsePageParam q.page - 1) * parseLimitParam q.limit)).take
    (parseLimitParam q.limit)

/-- `total = await Task.countDocuments(filter)` — the same filter object as
the page fetch. -/
def getTasksTotal (db : List Task) (role : Role) (uid : Nat) (q : QueryParams)
    (now : Int) : Nat :=
  (getTasksFilteredDb db role uid q now).length

/-- `pages = Math.ceil(total / limit)` (for nonnegative integers,
`⌈total / limit⌉ = (total + limit - 1) / limit`). -/
def getTasksPages (db : List Task) (role : Role) (uid : Nat) (q : QueryParams)
    (now : Int) : Nat :=
  (getTasksTotal db role uid q now + parseLimitParam q.limit - 1) / parseLimitParam q.limit

/-- The `matchQuery` of `getTaskStats`: `{}` for an admin, the ownership
`$or` otherwise. -/
def ownScope (role : Role) (uid : Nat) (t : Task) : Bool :=
  role == Role.admin || t.assignedTo == uid || t.createdBy == uid

/-- `$match` stage of the status aggregation: `{...matchQuery, isArchived:
false}`. -/
def statusAggPred (role : Role) (uid : Nat) (t : Task) : Bool :=
  ownScope role uid t && !t.isArchived

/-- `$match` stage of the priority aggregation: `{...matchQuery,
isArchived: false}`. -/
def priorityAggPred (role : Role) (uid : Nat) (t : Task) : Bool :=
  ownScope role uid t && !t.isArchived

/-- The status aggregation's `$group` by `$status`: the count reported for
one status bucket. -/
def statusAggCount (role : Role) (uid : Nat) (db : List Task) (s : Status) : Nat :=
  (db.filter (statusAggPred role uid)).countP (fun t => t.status == s)

/-- The priority aggregation's `$group` by `$priority`. -/
def priorityAggCount (role : Role) (uid : Nat) (db : List Task) (p : Priority) : Nat :=
  (db.filter (priorityAggPred role uid)).countP (fun t => t.priority == p)

/-- The `overdueTasks` count: `{...matchQuery, dueDate: {$lt: now}, status:
{$nin: ['completed', 'cancelled']}, isArchived: false}`. -/
def overduePred (role : Role) (uid : Nat) (now : Int) (t : Task) : Bool :=
  ownScope role uid t &&
  (match t.dueDate with
   | some d => decide (d < now)
   | none => false) &&
  !(t.status == Status.completed || t.status == Status.cancelled) &&
  !t.isArchived

def overdueCount (role : Role) (uid : Nat) (now : Int) (db : List Task) : Nat :=
  db.countP (overduePred role uid now)

/-- The `completedThisMonth` count: `{...matchQuery, status: 'completed',
completedAt: {$gte: monthStart, $lt: monthNext}}`; `monthStart`/`monthNext`
stand for `new Date(y, m, 1)` and `new Date(y, m + 1, 1)` of the server
clock's current year/month. There is no `isArchived` key in this query. -/
def completedThisMonthPred (role : Role) (uid : Nat) (monthStart monthNext : Int)
    (t : Task) : Bool :=
  ownScope role uid t &&
  t.status == Status.completed &&
  (match t.completedAt with
   | some c => decide (monthStart ≤ c) && decide (c < monthNext)
   | none => false)

def completedThisMonthCount (role : Role) (uid : Nat) (monthStart monthNext : Int)
    (db : List Task) : Nat :=
  db.countP (completedThisMonthPred role uid monthStart monthNext)

/-- The identity record the authentication middleware consults (the fields
of the User document it reads). -/
structure AuthUser where
  id : Nat
  role : Role
  isActive : Bool
  passwordChangedAt : Option Int
deriving DecidableEq, Repr

/-- Modelled from the spec: the User model's schema method
`changedPasswordAfter` is not among the sources at hand (only its caller,
the authentication middleware, is). §4.1 step 4: "compare claims.issuedAt
against identity.secretChangedAt; if token issued strictly before the
watermark, `Rejected(StaleCredential)`" — so the method is true exactly
when a watermark exists and the token's `iat` is strictly before it. -/
def changedPasswordAfter (u : AuthUser) (iat : Int) : Bool :=
  match u.passwordChangedAt with
  | some changedAt => decide (iat < changedAt)
  | none => false

/-- The claims of a verified token (`decoded.id`, `decoded.iat`). -/
structure TokenClaims where
  id : Nat
  iat : Int
deriving DecidableEq, Repr

/-- The outcomes of the middleware's post-verification steps, mirroring the
spec's rejection kinds. -/
inductive AuthOutcome
  | ok (u : AuthUser)
  | rejectedUnknownSubject
  | rejectedDeactivated
  | rejectedStaleCredential
deriving DecidableEq, Repr

/-- The `authenticate` middleware after `extractToken`/`verifyToken` have
produced claims: load the user by `decoded.id` (`lookup` is the result),
reject an unknown subject, then a deactivated account, then a token issued
before the password-change watermark; otherwise the request proceeds as the
authenticated user. -/
def authenticate (lookup : Option AuthUser) (claims : TokenClaims) : AuthOutcome :=
  match lookup with
  | none => AuthOutcome.rejectedUnknownSubject
  | some u =>
    if !u.isActive then AuthOutcome.rejectedDeactivated
    else if changedPasswordAfter u claims.iat then AuthOutcome.rejectedStaleCredential
    else AuthOutcome.ok u

/-! ### Concrete instances used by the counterexamples and witnesses -/

/-- A task neither assigned to nor created by user 1, whose title matches
the search term of `c1Query`. -/
def c1Task : Task := { title := "Example", assignedTo := 2, createdBy := 2 }

/-- A request whose only parameter is the free-text search term. -/
def c1Query : QueryParams := { search := some "exam" }

/-- An owned, overdue, non-completed task whose status is not the one the
`c5Query` status filter asks for. -/
def c5Task : Task :=
  { title := "T", status := Status.inProgress, dueDate := some (-5), assignedTo := 1,
    createdBy := 1 }

/-- A request combining a `status` equality filter with `dueDate=overdue`. -/
def c5Query : QueryParams := { status := some Status.pending, dueDate := some "overdue" }

/-- A pending task owned by user 1 with no `completedAt`. -/
def c2Task : Task := { title := "Write report", assignedTo := 1, createdBy := 1 }

/-- An update request that only sets the status to `completed`. -/
def c2Body : UpdateBody := { status := some Status.completed }

/-- A task assigned to user 5 and created by user 1. -/
def w3Task : Task := { title := "W", assignedTo := 5, createdBy := 1 }

/-- A create request in which user 1 tries to assign the task to user 2. -/
def w3CreateBody : CreateBody := { assignedTo := some 2 }

/-- An update request in which the caller tries to reassign to user 2. -/
def w3UpdateBody : UpdateBody := { assignedTo := some 2 }

/-- An active identity whose password changed at time 10. -/
def w4User : AuthUser := { id := 7, role := Role.user, isActive := true,
                           passwordChangedAt := some 10 }

/-- A completed task of user 3 whose `completedAt` lies before the current
calendar month but within 30 days of `now = dayMs`. -/
def w7Task : Task :=
  { title := "w", status := Status.completed, completedAt := some (-100), assignedTo := 3,
    createdBy := 3 }

/-- A pending task owned by user 1, used by the update-frame witness. -/
def w9Task : Task := { title := "Keep", description := "old", assignedTo := 1, createdBy := 1 }

/-- An update request carrying a writable field, two non-writable fields and
an unknown key. -/
def w9Body : UpdateBody :=
  { status := some Status.inProgress, completedAt := some 7, createdBy := some 9,
    otherKeys := ["hack"] }

/-- An owned task whose due date already passed at time 0. -/
def w10Task : Task := { title := "Late", dueDate := some (-1), assignedTo := 1, createdBy := 1 }

/-- A task assigned to and created by user 5. -/
def w1Task : Task := { title := "Mine", assignedTo := 5, createdBy := 5 }

/-- A task whose fields match every equality filter of `w5Query`. -/
def w5Task : Task :=
  { title := "x", status := Status.pending, priority := Priority.high, category := "g",
    assignedTo := 2, createdBy := 3, isArchived := false }

/-- A request using all six equality filters and no date keyword. -/
def w5Query : QueryParams :=
  { status := some Status.pending, priority := some Priority.high, category := some "g",
    assignedTo := some 2, createdBy := some 3, isArchived := some "false" }

/-! ### Projections of the filter-building stages -/

theorem baseScopeFilter_orClause (role : Role) (uid : Nat) :
    (baseScopeFilter role uid).orClause =
      if role == Role.admin then none else some (OrClause.ownership uid) := by
  cases role <;> rfl

theorem baseScopeFilter_status (role : Role) (uid : Nat) :
    (baseScopeFilter role uid).status = none := by
  cases role <;> rfl

theorem baseScopeFilter_priority (role : Role) (uid : Nat) :
    (baseScopeFilter role uid).priority = none := by
  cases role <;> rfl

theorem baseScopeFilter_category (role : Role) (uid : Nat) :
    (baseScopeFilter role uid).category = none := by
  cases role <;> rfl

theorem baseScopeFilter_assignedTo (role : Role) (uid : Nat) :
    (baseScopeFilter role uid).assignedTo = none := by
  cases role <;> rfl

theorem baseScopeFilter_createdBy (role : Role) (uid : Nat) :
    (baseScopeFilter role uid).createdBy = none := by
  cases role <;> rfl

theorem baseScopeFilter_isArchived (role : Role) (uid : Nat) :
    (baseScopeFilter role uid).isArchived = none := by
  cases role <;> rfl

theorem baseScopeFilter_dueDate (role : Role) (uid : Nat) :
    (baseScopeFilter role uid).dueDate = none := by
  cases role <;> rfl

theorem applyEqualityFilters_orClause (q : QueryParams) (f : TaskFilter) :
    (applyEqualityFilters q f).orClause = f.orClause := by
  obtain ⟨pg, lim, s, p, c, a, cb, ar, dd, se, so⟩ := q
  cases s <;> cases p <;> cases c <;> cases a <;> cases cb <;> cases ar <;> rfl

theorem applyEqualityFilters_status (q : QueryParams) (f : TaskFilter) :
    (applyEqualityFilters q f).status =
      match q.status with
      | some s => some (StatusCond.eq s)
      | none => f.status := by
  obtain ⟨pg, lim, s, p, c, a, cb, ar, dd, se, so⟩ := q
  cases s <;> cases p <;> cases c <;> cases a <;> cases cb <;> cases ar <;> rfl

theorem applyEqualityFilters_priority (q : QueryParams) (f : TaskFilter) :
    (applyEqualityFilters q f).priority =
      match q.priority with
      | some p => some p
      | none => f.priority := by
  obtain ⟨pg, lim, s, p, c, a, cb, ar, dd, se, so⟩ := q
  cases s <;> cases p <;> cases c <;> cases a <;> cases cb <;> cases ar <;> rfl

theorem applyEqualityFilters_category (q : QueryParams) (f : TaskFilter) :
    (applyEqualityFilters q f).category =
      match q.category with
      | some c => some c
      | none => f.category := by
  obtain ⟨pg, lim, s, p, c, a, cb, ar, dd, se, so⟩ := q
  cases s <;> cases p <;> cases c <;> cases a <;> cases cb <;> cases ar <;> rfl

theorem applyEqualityFilters_assignedTo (q : QueryParams) (f : TaskFilter) :
    (applyEqualityFilters q f).assignedTo =
      match q.assignedTo with
      | some a => some a
      | none => f.assignedTo := by
  obtain ⟨pg, lim, s, p, c, a, cb, ar, dd, se, so⟩ := q
  cases s <;> cases p <;> cases c <;> cases a <;> cases cb <;> cases ar <;> rfl

theorem applyEqualityFilters_createdBy (q : QueryParams) (f : TaskFilter) :
    (applyEqualityFilters q f).createdBy =
      match q.createdBy with
      | some c => some c
      | none => f.createdBy := by
  obtain ⟨pg, lim, s, p, c, a, cb, ar, dd, se, so⟩ := q
  cases s <;> cases p <;> cases c <;> cases a <;> cases cb <;> cases ar <;> rfl

theorem applyEqualityFilters_isArchived (q : QueryParams) (f : TaskFilter) :
    (applyEqualityFilters q f).isArchived =
      match q.isArchived with
      | some s => some (s == "true")
      | none => f.isArchived := by
  obtain ⟨pg, lim, s, p, c, a, cb, ar, dd, se, so⟩ := q
  cases s <;> cases p <;> cases c <;> cases a <;> cases cb <;> cases ar <;> rfl

theorem applyEqualityFilters_dueDate (q : QueryParams) (f : TaskFilter) :
    (applyEqualityFilters q f).dueDate = f.dueDate := by
  obtain ⟨pg, lim, s, p, c, a, cb, ar, dd, se, so⟩ := q
  cases s <;> cases p <;> cases c <;> cases a <;> cases cb <;> cases ar <;> rfl

theorem applyDueDateFilter_orClause (q : QueryParams) (now : Int) (f : TaskFilter) :
    (applyDueDateFilter q now f).orClause = f.orClause := by
  unfold applyDueDateFilter
  cases q.dueDate with
  | none => rfl
  | some s =>
    simp only []
    split
    · rfl
    · split <;> rfl

theorem applyDueDateFilter_status (q : QueryParams) (now : Int) (f : TaskFilter) :
    (applyDueDateFilter q now f).status =
      match q.dueDate with
      | some s =>
        if s == "overdue" then some (StatusCond.nin [Status.completed, Status.cancelled])
        else f.status
      | none => f.status := by
  unfold applyDueDateFilter
  cases q.dueDate with
  | none => rfl
  | some s =>
    simp only []
    split
    · rfl
    · split <;> rfl

theorem applyDueDateFilter_priority (q : QueryParams) (now : Int) (f : TaskFilter) :
    (applyDueDateFilter q now f).priority = f.priority := by
  unfold applyDueDateFilter
  cases q.dueDate with
  | none => rfl
  | some s =>
    simp only []
    split
    · rfl
    · split <;> rfl

theorem applyDueDateFilter_category (q : QueryParams) (now : Int) (f : TaskFilter) :
    (applyDueDateFilter q now f).category = f.category := by
  unfold applyDueDateFilter
  cases q.dueDate with
  | none => rfl
  | some s =>
    simp only []
    split
    · rfl
    · split <;> rfl

theorem applyDueDateFilter_assignedTo (q : QueryParams) (now : Int) (f : TaskFilter) :
    (applyDueDateFilter q now f).assignedTo = f.assignedTo := by
  unfold applyDueDateFilter
  cases q.dueDate with
  | none => rfl
  | some s =>
    simp only []
    split
    · rfl
    · split <;> rfl

theorem applyDueDateFilter_createdBy (q : QueryParams) (now : Int) (f : TaskFilter) :
    (applyDueDateFilter q now f).createdBy = f.createdBy := by
  unfold applyDueDateFilter
  cases q.dueDate with
  | none => rfl
  | some s =>
    simp only []
    split
    · rfl
    · split <;> rfl

theorem applyDueDateFilter_isArchived (q : QueryParams) (now : Int) (f : TaskFilter) :
    (applyDueDateFilter q now f).isArchived = f.isArchived := by
  unfold applyDueDateFilter
  cases q.dueDate with
  | none => rfl
  | some s =>
    simp only []
    split
    · rfl
    · split <;> rfl

theorem applyDueDateFilter_dueDate (q : QueryParams) (now : Int) (f : TaskFilter) :
    (applyDueDateFilter q now f).dueDate =
      match q.dueDate with
      | some s =>
        if s == "overdue" then some (DueCond.lt now)
        else if s == "today" then some (DueCond.range now (now + dayMs))
        else f.dueDate
      | none => f.dueDate := by
  unfold applyDueDateFilter
  cases q.dueDate with
  | none => rfl
  | some s =>
    simp only []
    split
    · rfl
    · split <;> rfl

theorem applySearchFilter_orClause (q : QueryParams) (f : TaskFilter) :
    (applySearchFilter q f).orClause =
      match q.search with
      | some s => some (OrClause.searchText s)
      | none => f.orClause := by
  unfold applySearchFilter
  cases q.search <;> rfl

theorem applySearchFilter_status (q : QueryParams) (f : TaskFilter) :
    (applySearchFilter q f).status = f.status := by
  unfold applySearchFilter
  cases q.search <;> rfl

theorem applySearchFilter_priority (q : QueryParams) (f : TaskFilter) :
    (applySearchFilter q f).priority = f.priority := by
  unfold applySearchFilter
  cases q.search <;> rfl

theorem applySearchFilter_category (q : QueryParams) (f : TaskFilter) :
    (applySearchFilter q f).category = f.category := by
  unfold applySearchFilter
  cases q.search <;> rfl

theorem applySearchFilter_assignedTo (q : QueryParams) (f : TaskFilter) :
    (applySearchFilter q f).assignedTo = f.assignedTo := by
  unfold applySearchFilter
  cases q.search <;> rfl

theorem applySearchFilter_createdBy (q : QueryParams) (f : TaskFilter) :
    (applySearchFilter q f).createdBy = f.createdBy := by
  unfold applySearchFilter
  cases q.search <;> rfl

theorem applySearchFilter_isArchived (q : QueryParams) (f : TaskFilter) :
    (applySearchFilter q f).isArchived = f.isArchived := by
  unfold applySearchFilter
  cases q.search <;> rfl

/-! ### Projections of the complete filter -/

theorem buildFilter_orClause (role : Role) (uid : Nat) (q : QueryParams) (now : Int) :
    (buildFilter role uid q now).orClause =
      match q.search with
      | some s => some (OrClause.searchText s)
      | none => if role == Role.admin then none else some (OrClause.ownership uid) := by
  unfold buildFilter
  rw [applySearchFilter_orClause, applyDueDateFilter_orClause, applyEqualityFilters_orClause,
    baseScopeFilter_orClause]

theorem buildFilter_status (role : Role) (uid : Nat) (q : QueryParams) (now : Int) :
    (buildFilter role uid q now).status =
      match q.dueDate with
      | some s =>
        if s == "overdue" then some (StatusCond.nin [Status.completed, Status.cancelled])
        else (match q.status with
              | some st => some (StatusCond.eq st)
              | none => none)
      | none =>
        match q.status with
        | some st => some (StatusCond.eq st)
        | none => none := by
  unfold buildFilter
  rw [applySearchFilter_status, applyDueDateFilter_status, applyEqualityFilters_status,
    baseScopeFilter_status]

theorem buildFilter_priority (role : Role) (uid : Nat) (q : QueryParams) (now : Int) :
    (buildFilter role uid q now).priority =
      match q.priority with
      | some p => some p
      | none => none := by
  unfold buildFilter
  rw [applySearchFilter_priority, applyDueDateFilter_priority, applyEqualityFilters_priority,
    baseScopeFilter_priority]

theorem buildFilter_category (role : Role) (uid : Nat) (q : QueryParams) (now : Int) :
    (buildFilter role uid q now).category =
      match q.category with
      | some c => some c
      | none => none := by
  unfold buildFilter
  rw [applySearchFilter_category, applyDueDateFilter_category, applyEqualityFilters_category,
    baseScopeFilter_category]

theorem buildFilter_assignedTo (role : Role) (uid : Nat) (q : QueryParams) (now : Int) :
    (buildFilter role uid q now).assignedTo =
      match q.assignedTo with
      | some a => some a
      | none => none := by
  unfold buildFilter
  rw [applySearchFilter_assignedTo, applyDueDateFilter_assignedTo,
    applyEqualityFilters_assignedTo, baseScopeFilter_assignedTo]

theorem buildFilter_createdBy (role : Role) (uid : Nat) (q : QueryParams) (now : Int) :
    (buildFilter role uid q now).createdBy =
      match q.createdBy with
      | some c => some c
      | none => none := by
  unfold buildFilter
  rw [applySearchFilter_createdBy, applyDueDateFilter_createdBy,
    applyEqualityFilters_createdBy, baseScopeFilter_createdBy]

theorem buildFilter_isArchived (role : Role) (uid : Nat) (q : QueryParams) (now : Int) :
    (buildFilter role uid q now).isArchived =
      match q.isArchived with
      | some s => some (s == "true")
      | none => none := by
  unfold buildFilter
  rw [applySearchFilter_isArchived, applyDueDateFilter_isArchived,
    applyEqualityFilters_isArchived, baseScopeFilter_isArchived]

theorem applySearchFilter_dueDate (q : QueryParams) (f : TaskFilter) :
    (applySearchFilter q f).dueDate = f.dueDate := by
  unfold applySearchFilter
  cases q.search <;> rfl

theorem buildFilter_dueDate (role : Role) (uid : Nat) (q : QueryParams) (now : Int) :
    (buildFilter role uid q now).dueDate =
      match q.dueDate with
      | some s =>
        if s == "overdue" then some (DueCond.lt now)
        else if s == "today" then some (DueCond.range now (now + dayMs))
        else none
      | none => none := by
  unfold buildFilter
  rw [applySearchFilter_dueDate, applyDueDateFilter_dueDate, applyEqualityFilters_dueDate,
    baseScopeFilter_dueDate]

/-- Splitting a filter match into the eight per-key conditions. -/
theorem matchesFilter_eq_true (t : Task) (f : TaskFilter) :
    matchesFilter t f = true ↔
      orMatches t f.orClause = true ∧
      statusCondMatches t f.status = true ∧
      priorityMatches t f.priority = true ∧
      categoryMatches t f.category = true ∧
      assignedToMatches t f.assignedTo = true ∧
      createdByMatches t f.createdBy = true ∧
      archivedMatches t f.isArchived = true ∧
      dueMatches t f.dueDate = true := by
  simp [matchesFilter, Bool.and_eq_true, and_assoc]

/-! ### Pagination -/

/-- `parseInt(...) || 10` never yields `0`: the defaulting makes the limit
positive. -/
theorem parseLimitParam_pos (p : Option Nat) : 0 < parseLimitParam p := by
  cases p with
  | none => simp [parseLimitParam]
  | some n => cases n <;> simp [parseLimitParam]

/-- Fetching page `i + 1` only moves the drop/take window: the filter (and
so the matching set) does not depend on the page parameter. -/
theorem getTasksItems_page (db : List Task) (role : Role) (uid : Nat) (q : QueryParams)
    (now : Int) (i : Nat) :
    getTasksItems db role uid { q with page := some (i + 1) } now =
      ((getTasksFilteredDb db role uid q now).drop (i * parseLimitParam q.limit)).take
        (parseLimitParam q.limit) := by
  obtain ⟨pg, lim, s, p, c, a, cb, ar, dd, se, so⟩ := q
  rfl

/-- Cutting a list into consecutive `k`-sized windows, one per page, yields
the whole list back. -/
theorem chunksFlatten {α : Type} (k : Nat) (hk : 0 < k) :
    ∀ (n : Nat) (l : List α), l.length ≤ n →
      ((List.range ((l.length + k - 1) / k)).map (fun i => (l.drop (i * k)).take k)).flatten
        = l := by
  intro n
  induction n with
  | zero =>
    intro l hl
    have hnil : l = [] := List.eq_nil_of_length_eq_zero (Nat.le_zero.mp hl)
    subst hnil
    have h0 : ((List.length ([] : List α)) + k - 1) / k = 0 := by
      apply Nat.div_eq_of_lt
      simp only [List.length_nil, Nat.zero_add]
      omega
    rw [h0]
    rfl
  | succ n ih =>
    intro l hl
    cases l with
    | nil =>
      have h0 : ((List.length ([] : List α)) + k - 1) / k = 0 := by
        apply Nat.div_eq_of_lt
        simp only [List.length_nil, Nat.zero_add]
        omega
      rw [h0]
      rfl
    | cons x xs =>
      have hpages : ((x :: xs).length + k - 1) / k = ((x :: xs).length - 1) / k + 1 := by
        have hnum : (x :: xs).length + k - 1 = ((x :: xs).length - 1) + k := by
          simp only [List.length_cons]
          omega
        rw [hnum, Nat.add_div_right _ hk]
      rw [hpages, List.range_succ_eq_map]
      simp only [List.map_cons, List.flatten_cons, List.map_map, Function.comp_def]
      have hhead : ((x :: xs).drop (0 * k)).take k = (x :: xs).take k := by
        rw [Nat.zero_mul, List.drop_zero]
      rw [hhead]
      have hfun : (fun i => ((x :: xs).drop (Nat.succ i * k)).take k) =
          (fun i => (((x :: xs).drop k).drop (i * k)).take k) := by
        funext i
        rw [Nat.succ_mul, Nat.add_comm (i * k) k, ← List.drop_drop]
      rw [hfun]
      have hlen2 : ((x :: xs).drop k).length = (x :: xs).length - k := List.length_drop k _
      have hm : ((x :: xs).length - 1) / k = (((x :: xs).drop k).length + k - 1) / k := by
        rw [hlen2]
        rcases Nat.le_total k (x :: xs).length with h | h
        · congr 1
          omega
        · have e1 : (x :: xs).length - k = 0 := by omega
          rw [e1]
          have e2 : (0 + k - 1) / k = 0 := Nat.div_eq_of_lt (by omega)
          rw [e2]
          apply Nat.div_eq_of_lt
          simp only [List.length_cons] at h ⊢
          omega
      rw [hm, ih ((x :: xs).drop k) (by rw [hlen2]; simp only [List.length_cons] at hl ⊢; omega)]
      exact List.take_append_drop k (x :: xs)

/-- C8: the list operation evaluates one filter for both the page fetch and
the count, so the reported page count is `⌈total / limit⌉` (stated as the
two ceiling bounds `total ≤ pages·limit < total + limit`) and the pages
`1, 2, …, pages` (offset `(page − 1)·limit`, defaults page 1 / limit 10)
concatenate exactly to the full matching set of `totalCount` items. -/
theorem C8_pagination_consistent (db : List Task) (role : Role) (uid : Nat)
    (q : QueryParams) (now : Int) :
    getTasksTotal db role uid q now ≤
      getTasksPages db role uid q now * parseLimitParam q.limit ∧
    getTasksPages db role uid q now * parseLimitParam q.limit <
      getTasksTotal db role uid q now + parseLimitParam q.limit ∧
    ((List.range (getTasksPages db role uid q now)).map
        (fun i => getTasksItems db role uid { q with page := some (i + 1) } now)).flatten =
      getTasksFilteredDb db role uid q now := by
  have hk : 0 < parseLimitParam q.limit := parseLimitParam_pos q.limit
  refine ⟨?_, ?_, ?_⟩
  · unfold getTasksPages
    generalize getTasksTotal db role uid q now = T
    rw [Nat.mul_comm]
    have hdm := Nat.div_add_mod (T + parseLimitParam q.limit - 1) (parseLimitParam q.limit)
    have hmod : (T + parseLimitParam q.limit - 1) % parseLimitParam q.limit <
        parseLimitParam q.limit := Nat.mod_lt _ hk
    set k := parseLimitParam q.limit with hkdef
    set P := (T + k - 1) / k with hP
    set r := (T + k - 1) % k with hr
    set M := k * P with hM
    omega
  · unfold getTasksPages
    generalize getTasksTotal db role uid q now = T
    rw [Nat.mul_comm]
    have hdm := Nat.div_add_mod (T + parseLimitParam q.limit - 1) (parseLimitParam q.limit)
    have hmod : (T + parseLimitParam q.limit - 1) % parseLimitParam q.limit <
        parseLimitParam q.limit := Nat.mod_lt _ hk
    set k := parseLimitParam q.limit with hkdef
    set P := (T + k - 1) / k with hP
    set r := (T + k - 1) % k with hr
    set M := k * P with hM
    omega
  · rw [List.map_congr_left (fun i _ => getTasksItems_page db role uid q now i)]
    exact chunksFlatten (parseLimitParam q.limit) hk
      (getTasksFilteredDb db role uid q now).length (getTasksFilteredDb db role uid q now)
      (Nat.le_refl _)

/-! ### C1: ownership scope of the task list -/

/-- C1 (counterexample): with a free-text search term present, the search
`$or` replaces the non-admin ownership `$or`, so user 1 receives a task
that user 2 created and is assigned to — the claimed scope does not hold
when a search term is present. -/
theorem C1_search_replaces_scope_counterexample :
    matchesFilter c1Task (buildFilter Role.user 1 c1Query 0) = true ∧
    c1Task.assignedTo ≠ 1 ∧ c1Task.createdBy ≠ 1 ∧
    c1Task ∈ getTasksItems [c1Task] Role.user 1 c1Query 0 := by
  decide

/-- C1 (amended): for a non-admin caller and any parameter combination
without a search term, every task `getTasks` returns is assigned to or
created by the caller; when a search term is present it replaces the
ownership OR-group outright; an admin with no filters is unrestricted. -/
theorem C1_ownership_scope (db : List Task) (uid : Nat) (q : QueryParams) (now : Int) :
    (q.search = none →
      ∀ t ∈ getTasksItems db Role.user uid q now, t.assignedTo = uid ∨ t.createdBy = uid) ∧
    (∀ s, q.search = some s →
      (buildFilter Role.user uid q now).orClause = some (OrClause.searchText s)) ∧
    (∀ t, matchesFilter t (buildFilter Role.admin uid ({} : QueryParams) now) = true) := by
  refine ⟨?_, ?_, ?_⟩
  · intro hs t ht
    have h1 : t ∈ getTasksFilteredDb db Role.user uid q now :=
      List.drop_subset _ _ (List.take_subset _ _ ht)
    have h2 : matchesFilter t (buildFilter Role.user uid q now) = true :=
      (List.mem_filter.mp h1).2
    have h3 : (buildFilter Role.user uid q now).orClause = some (OrClause.ownership uid) := by
      rw [buildFilter_orClause, hs]
      rfl
    have hor := ((matchesFilter_eq_true t _).mp h2).1
    rw [h3] at hor
    simpa [orMatches, Bool.or_eq_true] using hor
  · intro s hs
    rw [buildFilter_orClause, hs]
  · intro t
    rfl

/-- Witness for C1: a task of user 5 is returned to user 5 on a filterless
request, and the theorem places it inside the ownership scope. -/
theorem C1_ownership_scope_witness :
    w1Task ∈ getTasksItems [w1Task] Role.user 5 ({} : QueryParams) 0 ∧
    (w1Task.assignedTo = 5 ∨ w1Task.createdBy = 5) :=
  ⟨by decide, (C1_ownership_scope [w1Task] 5 ({} : QueryParams) 0).1 rfl w1Task (by decide)⟩

/-! ### C5: equality filters -/

/-- C5 (counterexample): with `status=pending` and `dueDate=overdue` in one
request, the overdue branch overwrites the `status` key, so a matching task
need not have the requested status — the status equality is not conjoined. -/
theorem C5_overdue_overwrites_status_counterexample :
    matchesFilter c5Task (buildFilter Role.user 1 c5Query 0) = true ∧
    c5Task.status ≠ Status.pending := by
  decide

/-- C5 (amended): each of priority, category, assignedTo, createdBy and
archived present in the request is conjoined as an exact equality match,
and so is status — except when `dueDate=overdue` is present, in which case
the overdue branch replaces the status equality by
`status ∉ {completed, cancelled}` (together with `dueDate < now`). -/
theorem C5_equality_filters (role : Role) (uid : Nat) (q : QueryParams) (now : Int)
    (t : Task) (h : matchesFilter t (buildFilter role uid q now) = true) :
    (∀ p, q.priority = some p → t.priority = p) ∧
    (∀ c, q.category = some c → t.category = c) ∧
    (∀ a, q.assignedTo = some a → t.assignedTo = a) ∧
    (∀ c, q.createdBy = some c → t.createdBy = c) ∧
    (∀ s, q.isArchived = some s → t.isArchived = (s == "true")) ∧
    (∀ st, q.status = some st → q.dueDate ≠ some "overdue" → t.status = st) ∧
    (q.dueDate = some "overdue" →
      (∃ d, t.dueDate = some d ∧ d < now) ∧
      t.status ≠ Status.completed ∧ t.status ≠ Status.cancelled) := by
  obtain ⟨hor, hst, hpr, hca, has, hcb, har, hdue⟩ := (matchesFilter_eq_true t _).mp h
  refine ⟨?_, ?_, ?_, ?_, ?_, ?_, ?_⟩
  · intro p hp
    rw [buildFilter_priority, hp] at hpr
    simpa [priorityMatches] using hpr
  · intro c hc
    rw [buildFilter_category, hc] at hca
    simpa [categoryMatches] using hca
  · intro a ha
    rw [buildFilter_assignedTo, ha] at has
    simpa [assignedToMatches] using has
  · intro c hc
    rw [buildFilter_createdBy, hc] at hcb
    simpa [createdByMatches] using hcb
  · intro s hs
    rw [buildFilter_isArchived, hs] at har
    simpa [archivedMatches] using har
  · intro st hqs hno
    rw [buildFilter_status] at hst
    cases hdd : q.dueDate with
    | none =>
      rw [hdd, hqs] at hst
      simpa [statusCondMatches] using hst
    | some ds =>
      have hne : (ds == "overdue") = false := by
        refine beq_eq_false_iff_ne.mpr ?_
        intro hcontra
        exact hno (hdd.trans (by rw [hcontra]))
      rw [hdd] at hst
      simp only [hne, Bool.false_eq_true, if_false, hqs] at hst
      simpa [statusCondMatches] using hst
  · intro hdd
    constructor
    · rw [buildFilter_dueDate, hdd] at hdue
      simp only [beq_self_eq_true, if_true] at hdue
      cases htd : t.dueDate with
      | none => simp [dueMatches, htd] at hdue
      | some d => exact ⟨d, rfl, by simpa [dueMatches, htd] using hdue⟩
    · rw [buildFilter_status, hdd] at hst
      simp only [beq_self_eq_true, if_true] at hst
      simp only [statusCondMatches, List.contains, Bool.not_eq_true', List.elem_eq_mem,
        List.mem_cons, List.mem_singleton, decide_eq_false_iff_not, not_or] at hst
      exact ⟨hst.1, hst.2.1⟩

/-- Witness for C5: an admin request with all six equality filters and no
date keyword; the theorem recovers the exact priority and status of a
matching task. -/
theorem C5_equality_filters_witness :
    matchesFilter w5Task (buildFilter Role.admin 9 w5Query 0) = true ∧
    w5Task.priority = Priority.high ∧ w5Task.status = Status.pending :=
  ⟨by decide,
   (C5_equality_filters Role.admin 9 w5Query 0 w5Task (by decide)).1 Priority.high rfl,
   (C5_equality_filters Role.admin 9 w5Query 0 w5Task (by decide)).2.2.2.2.2.1
     Status.pending rfl (by decide)⟩

/-! ### C2: the completedAt derivation -/

/-- C2 (code evaluated at the failing input): updating a pending task's
status to `completed` goes through `findByIdAndUpdate`, which does not run
the `pre('save')` middleware — the stored task ends with status
`completed` and `completedAt` still `null`, violating the invariant. The
create path, by contrast, runs the save pipeline and does set
`completedAt`. -/
theorem C2_update_bypasses_completedAt_hook :
    updateTask 1 Role.user (some c2Task) c2Body 0 =
      Except.ok { c2Task with status := Status.completed } ∧
    ({ c2Task with status := Status.completed } : Task).status = Status.completed ∧
    ({ c2Task with status := Status.completed } : Task).completedAt = none ∧
    createTask 1 Role.user { title := some "Write report", status := some Status.completed } 7 =
      Except.ok { title := "Write report", status := Status.completed, completedAt := some 7,
                  assignedTo := 1, createdBy := 1 } :=
  ⟨rfl, rfl, rfl, rfl⟩

/-! ### C3: reassignment policy -/

/-- C3: a non-admin create request assigning to another identity, and a
non-admin update request setting `assignedTo` away from the task's current
assignee, are both rejected with a 403 before any write (the operations
return the `forbidden` error and produce no stored task). -/
theorem C3_reassign_forbidden (uid a : Nat) (cb : CreateBody) (ub : UpdateBody)
    (t : Task) (now : Int) :
    (cb.assignedTo = some a → a ≠ uid →
      createTask uid Role.user cb now =
        Except.error (ApiErr.forbidden "Only admins can assign tasks to other users")) ∧
    (ub.assignedTo = some a → t.assignedTo ≠ a →
      ∃ m, updateTask uid Role.user (some t) ub now = Except.error (ApiErr.forbidden m)) := by
  constructor
  · intro h1 h2
    have h2b : (uid == a) = false := beq_eq_false_iff_ne.mpr fun hc => h2 hc.symm
    simp [createTask, h1, h2b]
  · intro h1 h2
    have h2b : (t.assignedTo == a) = false := beq_eq_false_iff_ne.mpr h2
    cases hcm : t.canModify uid Role.user with
    | false =>
      exact ⟨"Access denied. You can only modify tasks you created or are assigned to",
        by simp [updateTask, hcm]⟩
    | true =>
      exact ⟨"Only admins can reassign tasks", by simp [updateTask, hcm, h1, h2b]⟩

/-- Witness for C3: user 1 may neither create a task assigned to user 2 nor
reassign a task (assigned to user 5) to user 2. -/
theorem C3_reassign_forbidden_witness :
    createTask 1 Role.user w3CreateBody 0 =
      Except.error (ApiErr.forbidden "Only admins can assign tasks to other users") ∧
    (∃ m, updateTask 1 Role.user (some w3Task) w3UpdateBody 0 =
      Except.error (ApiErr.forbidden m)) :=
  ⟨(C3_reassign_forbidden 1 2 w3CreateBody w3UpdateBody w3Task 0).1 rfl (by decide),
   (C3_reassign_forbidden 1 2 w3CreateBody w3UpdateBody w3Task 0).2 rfl (by decide)⟩

/-! ### C4: the password-change watermark -/

/-- C4: for an active subject with a secret-change watermark, a token
issued strictly before the watermark is rejected as a stale credential on
every authenticated request, and a token issued at or after it is not
rejected by this check. -/
theorem C4_stale_credential (u : AuthUser) (claims : TokenClaims) (t1 : Int)
    (hw : u.passwordChangedAt = some t1) :
    (u.isActive = true → claims.iat < t1 →
      authenticate (some u) claims = AuthOutcome.rejectedStaleCredential) ∧
    (t1 ≤ claims.iat → changedPasswordAfter u claims.iat = false) := by
  constructor
  · intro ha hlt
    simp [authenticate, ha, changedPasswordAfter, hw, hlt]
  · intro hle
    simp only [changedPasswordAfter, hw]
    exact decide_eq_false (not_lt.mpr hle)

/-- Witness for C4: the active user 7 changed their password at time 10; a
token issued at 5 is rejected as stale and a token issued at 12 passes the
watermark check. -/
theorem C4_stale_credential_witness :
    authenticate (some w4User) { id := 7, iat := 5 } = AuthOutcome.rejectedStaleCredential ∧
    changedPasswordAfter w4User 12 = false :=
  ⟨(C4_stale_credential w4User { id := 7, iat := 5 } 10 rfl).1 rfl (by decide),
   (C4_stale_credential w4User { id := 7, iat := 12 } 10 rfl).2 (by decide)⟩

/-! ### C6: one ownership gate for view and modify -/

/-- C6: the inline access check of `getTask` and the `canModify` gate used
by `updateTask`/`deleteTask` are the same predicate; for a `user` caller it
is exactly "assignee or creator", and for an admin it is always true. -/
theorem C6_single_ownership_gate (uid : Nat) (role : Role) (t : Task) :
    ((getTask uid role (some t)).isOk = t.canModify uid role) ∧
    ((deleteTask uid role (some t)).isOk = t.canModify uid role) ∧
    (t.canModify uid Role.user = (t.assignedTo == uid || t.createdBy == uid)) ∧
    (t.canModify uid Role.admin = true) := by
  cases role <;>
    cases h1 : t.assignedTo == uid <;>
    cases h2 : t.createdBy == uid <;>
      simp [getTask, deleteTask, Task.canModify, Except.isOk, Except.toBool, h1, h2]

/-! ### C7: the statistics aggregates -/

/-- C7: all four `getTaskStats` aggregates conjoin the caller's ownership
scope (which for a `user` is exactly "assignee or creator"); the status,
priority and overdue aggregates are restricted to non-archived tasks; the
completed-this-month count ignores the archived flag, requires status
`completed` with `completedAt` inside `[monthStart, monthNext)`, and
excludes any task completed before `monthStart` — in particular one
completed in a prior calendar month but within the last 30 days. -/
theorem C7_statsByScope (role : Role) (uid : Nat) (now monthStart monthNext : Int)
    (t : Task) (b : Bool) :
    (statusAggPred role uid t = true → ownScope role uid t = true ∧ t.isArchived = false) ∧
    (priorityAggPred role uid t = true → ownScope role uid t = true ∧ t.isArchived = false) ∧
    (overduePred role uid now t = true → ownScope role uid t = true ∧ t.isArchived = false) ∧
    (completedThisMonthPred role uid monthStart monthNext t = true →
      ownScope role uid t = true ∧ t.status = Status.completed ∧
      ∃ c, t.completedAt = some c ∧ monthStart ≤ c ∧ c < monthNext) ∧
    (completedThisMonthPred role uid monthStart monthNext { t with isArchived := b } =
      completedThisMonthPred role uid monthStart monthNext t) ∧
    (ownScope Role.user uid t = (t.assignedTo == uid || t.createdBy == uid)) ∧
    (∀ c, t.completedAt = some c → c < monthStart →
      completedThisMonthPred role uid monthStart monthNext t = false) := by
  refine ⟨?_, ?_, ?_, ?_, rfl, rfl, ?_⟩
  · intro h
    simpa [statusAggPred, Bool.and_eq_true] using h
  · intro h
    simpa [priorityAggPred, Bool.and_eq_true] using h
  · intro h
    simp only [overduePred, Bool.and_eq_true] at h
    exact ⟨h.1.1.1, by simpa using h.2⟩
  · intro h
    simp only [completedThisMonthPred, Bool.and_eq_true] at h
    obtain ⟨⟨hos, hsc⟩, hm⟩ := h
    refine ⟨hos, by simpa using hsc, ?_⟩
    cases hc : t.completedAt with
    | none => rw [hc] at hm; simp at hm
    | some c =>
      rw [hc] at hm
      simp only [Bool.and_eq_true, decide_eq_true_eq] at hm
      exact ⟨c, rfl, hm.1, hm.2⟩
  · intro c hc hlt
    have hdec : (decide (monthStart ≤ c)) = false := decide_eq_false (by omega)
    simp [completedThisMonthPred, hc, hdec]

/-- Witness for C7: the non-archived completed task of user 3, completed at
time −100 (the previous month, within 30 days of `now = dayMs`), is not
counted by the completed-this-month aggregate for the month starting at 0,
and its status-aggregate membership lies inside the ownership scope. -/
theorem C7_statsByScope_witness :
    completedThisMonthPred Role.user 3 0 2678400000 w7Task = false ∧
    (ownScope Role.user 3 w7Task = true ∧ w7Task.isArchived = false) :=
  ⟨(C7_statsByScope Role.user 3 dayMs 0 2678400000 w7Task false).2.2.2.2.2.2
     (-100) rfl (by decide),
   (C7_statsByScope Role.user 3 dayMs 0 2678400000 w7Task false).1 (by decide)⟩

/-! ### C9: the update allow-list -/

/-- C9: a successful update changes no field outside the allow-list —
`completedAt`, `createdBy`, `comments`, `attachments` are retained, and a
non-admin's `assignedTo` is retained; submitted values for non-writable
fields and unknown keys neither affect the outcome nor error; a non-admin
submitting `assignedTo` equal to the current assignee has it silently
dropped. -/
theorem C9_update_allow_list (uid : Nat) (role : Role) (t t1 : Task) (b : UpdateBody)
    (now : Int) :
    (updateTask uid role (some t) b now = Except.ok t1 →
      t1.completedAt = t.completedAt ∧ t1.createdBy = t.createdBy ∧
      t1.comments = t.comments ∧ t1.attachments = t.attachments ∧
      (role = Role.user → t1.assignedTo = t.assignedTo)) ∧
    (updateTask uid role (some t)
        { b with completedAt := none, createdBy := none, comments := none,
                 otherKeys := [] } now =
      updateTask uid role (some t) b now) ∧
    (b.assignedTo = some t.assignedTo →
      updateTask uid Role.user (some t) b now =
        updateTask uid Role.user (some t) { b with assignedTo := none } now) := by
  refine ⟨?_, ?_, ?_⟩
  · intro h
    simp only [updateTask] at h
    split at h
    · simp at h
    · split at h
      · simp at h
      · split at h
        · simp only [Except.ok.injEq] at h
          subst h
          refine ⟨rfl, rfl, rfl, rfl, ?_⟩
          intro hr
          subst hr
          rfl
        · simp at h
  · obtain ⟨ti, de, st, pr, ca, dd, tg, ia, asg, co, cr, cm, oks⟩ := b
    rfl
  · intro hba
    obtain ⟨ti, de, st, pr, ca, dd, tg, ia, asg, co, cr, cm, oks⟩ := b
    simp only [] at hba
    subst hba
    simp [updateTask, allowedUpdatesApplied, validUpdates]

/-- Witness for C9: a successful status-only update (whose body also
carries `completedAt`, `createdBy` and an unknown key) leaves the
non-writable fields of the stored task unchanged. -/
theorem C9_update_allow_list_witness :
    ({ w9Task with status := Status.inProgress } : Task).completedAt = w9Task.completedAt ∧
    ({ w9Task with status := Status.inProgress } : Task).createdBy = w9Task.createdBy ∧
    ({ w9Task with status := Status.inProgress } : Task).comments = w9Task.comments :=
  ⟨((C9_update_allow_list 1 Role.user w9Task { w9Task with status := Status.inProgress }
      w9Body 0).1 rfl).1,
   ((C9_update_allow_list 1 Role.user w9Task { w9Task with status := Status.inProgress }
      w9Body 0).1 rfl).2.1,
   ((C9_update_allow_list 1 Role.user w9Task { w9Task with status := Status.inProgress }
      w9Body 0).1 rfl).2.2.1⟩

/-! ### C10: addComment on a past-due task -/

/-- C10: for any task whose due date is set and not strictly in the future,
`addComment` fails for every caller — the save pipeline (the model-level
due-date check) rejects the document — so no comment is persisted and the
stored task is unchanged. -/
theorem C10_addComment_rejects_past_due (uid : Nat) (role : Role) (t : Task)
    (content : String) (now d : Int) (hd : t.dueDate = some d) (hle : d ≤ now) :
    (addComment uid role (some t) content now).isOk = false := by
  have hval : validateTask
      { t with comments :=
          t.comments ++ [{ content := content, author := uid, createdAt := now }] } now
      = false := by
    have hdec : (decide (now < d)) = false := decide_eq_false (by omega)
    simp [validateTask, hd, hdec]
  unfold addComment
  split
  · rfl
  · next t2 heq =>
    injection heq with h
    subst h
    split
    · rfl
    · simp [Task.addComment, Task.save, hval, Except.isOk, Except.toBool]

/-- Witness for C10: user 1 cannot comment on their own task whose due date
(−1) already passed at time 0. -/
theorem C10_addComment_rejects_past_due_witness :
    w10Task.dueDate = some (-1) ∧ ((-1 : Int) ≤ 0) ∧
    (addComment 1 Role.user (some w10Task) "hi" 0).isOk = false :=
  ⟨rfl, by decide,
   C10_addComment_rejects_past_due 1 Role.user w10Task "hi" 0 (-1) rfl (by decide)⟩

end TaskApp
